import Mathlib

/-!
Shallow embedding of the Valro task pipeline (`src/lambda-backend/`):
`dynamodb_helpers.py` (Task Store access), `worker_lambda.py` (Processing
Handler) and `lambda_function.py` (Intake Handler, in-memory `TASKS` store).

Modelling conventions:
* A DynamoDB item / Python task dict is a record whose non-key attributes are
  `Option`-valued, `none` meaning the attribute/key is absent.
* Both stores (the DynamoDB table and the in-memory `TASKS` dict) are keyed by
  `id` with at most one entry per key, so each is modelled as an association
  list updated at the first matching key.
* `table.update_item` without a `ConditionExpression` has DynamoDB upsert
  semantics: it creates the item (key plus the SET attributes) when the key is
  absent.  The Python dict mutations in `lambda_function.py` instead only act
  when the key is present (`TASKS.get` guards / `task[...]` aliasing).
* Each Python `datetime.now(timezone.utc).isoformat()` call site is supplied
  with a timestamp string from an explicit clock `t : Nat → String`; the
  several `now()` calls inside one helper are collapsed to that helper's one
  timestamp argument (no claim distinguishes sub-millisecond instants).
* External calls (the Lambda async invoke and the Bedrock AgentCore call) are
  parameters describing the observed outcome of the single call the code makes.
-/

namespace Valro

/-- One entry of a task's event timeline, as built by
`dynamodb_helpers.add_task_event` and the inline appends in
`lambda_function.py`: `{'ts': ..., 'message': ..., 'type': ...}`. -/
structure Event where
  ts : String
  message : String
  etype : String
deriving Repr, DecidableEq

/-- An email record returned by the agent payload.  The worker only reads
`e.get('recipient')` (absent key modelled as `none`); `payload` stands for the
remaining fields of the dict. -/
structure Email where
  recipient : Option String := none
  payload : String := ""
deriving Repr, DecidableEq

/-- A vendor record from the agent payload.  The worker reads
`vendor.get('email', '')` and writes `vendor['emails']`; `payload` stands for
the remaining fields of the dict. -/
structure Vendor where
  email : Option String := none
  emails : List Email := []
  payload : String := ""
deriving Repr, DecidableEq

/-- A task record: a DynamoDB item of the `valro-tasks` table, or equally a
value of the in-memory `TASKS` dict of `lambda_function.py`.  All non-key
attributes are optional (`none` = attribute absent from the item). -/
structure Item where
  id : String
  description : Option String := none
  status : Option String := none
  vendors : Option (List Vendor) := none
  quotes : Option (List String) := none
  emails_sent : Option Nat := none
  agent_response : Option String := none
  error_message : Option String := none
  events : Option (List Event) := none
  created_at : Option String := none
  updated_at : Option String := none
deriving Repr, DecidableEq

/-- A store keyed by task id (the DynamoDB table keyed on the `id` attribute /
the `TASKS` dict keyed on `task_id`): an association list from key to record,
with at most one entry per key in normal operation. -/
abbrev Store := List (String × Item)

/-- Point lookup (`get_task` / `TASKS.get(task_id)`). -/
def Store.get (s : Store) (k : String) : Option Item :=
  (s.find? (fun kv => kv.1 == k)).map (fun kv => kv.2)

/-- `table.update_item(Key={'id': k}, UpdateExpression=SET ...)` with no
condition expression: DynamoDB applies the SET to the existing item, or, when
the key is absent, creates a fresh item holding just the key attribute and the
SET attributes (upsert). -/
def dbUpdate (s : Store) (k : String) (f : Item → Item) : Store :=
  match s with
  | [] => [(k, f { id := k })]
  | kv :: rest =>
    if kv.1 == k then (kv.1, f kv.2) :: rest else kv :: dbUpdate rest k f

/-- In-place mutation of a Python dict value fetched via `TASKS.get(k)`:
applies only when the key is present, otherwise leaves the dict unchanged. -/
def dictUpdate (s : Store) (k : String) (f : Item → Item) : Store :=
  match s with
  | [] => []
  | kv :: rest =>
    if kv.1 == k then (kv.1, f kv.2) :: rest else kv :: dictUpdate rest k f

/-- `TASKS[task_id] = task`: Python dict assignment (replace or insert). -/
def dictPut (s : Store) (k : String) (v : Item) : Store :=
  match s with
  | [] => [(k, v)]
  | kv :: rest => if kv.1 == k then (k, v) :: rest else kv :: dictPut rest k v

/-- Python truthiness of an optional string (`if not x`): `None` and `''`
are falsy, any other string truthy. -/
def pyTruthy : Option String → Bool
  | none => false
  | some s => !(s == "")

/-- The item transformer of `update_task_status`:
`SET #status = :status, updated_at = :updated_at` plus
`error_message = :error_message` only when `if error_message:` is truthy. -/
def applyStatus (status : String) (error_message : Option String)
    (now : String) (it : Item) : Item :=
  let it1 := { it with status := some status, updated_at := some now }
  if pyTruthy error_message then
    { it1 with error_message := error_message }
  else
    it1

/-- `dynamodb_helpers.update_task_status(task_id, status, error_message)`. -/
def update_task_status (s : Store) (task_id status : String)
    (error_message : Option String) (now : String) : Store :=
  dbUpdate s task_id (applyStatus status error_message now)

/-- The item transformer of `add_task_event`:
`SET events = list_append(if_not_exists(events, :empty_list), :event),
updated_at = :updated_at`. -/
def applyEvent (message etype now : String) (it : Item) : Item :=
  { it with
    events := some ((it.events.getD []) ++ [⟨now, message, etype⟩]),
    updated_at := some now }

/-- `dynamodb_helpers.add_task_event(task_id, message, event_type)`. -/
def add_task_event (s : Store) (task_id message etype now : String) : Store :=
  dbUpdate s task_id (applyEvent message etype now)

/-- The item transformer of `update_task_with_agent_response`:
`SET agent_response = ..., emails_sent = ..., updated_at = ...` plus
`vendors = :vendors` only when `if vendors:` is truthy (`None` and `[]` are
both falsy in Python). -/
def applyAgentResp (agent_response : String) (vendors : Option (List Vendor))
    (emails_sent : Nat) (now : String) (it : Item) : Item :=
  let it1 := { it with
    agent_response := some agent_response,
    emails_sent := some emails_sent,
    updated_at := some now }
  match vendors with
  | none => it1
  | some vs => if vs.isEmpty then it1 else { it1 with vendors := some vs }

/-- `dynamodb_helpers.update_task_with_agent_response(task_id, agent_response,
vendors, emails_sent)`. -/
def update_task_with_agent_response (s : Store) (task_id : String)
    (agent_response : String) (vendors : Option (List Vendor))
    (emails_sent : Nat) (now : String) : Store :=
  dbUpdate s task_id (applyAgentResp agent_response vendors emails_sent now)

/-- The sort key of both listing paths: `x.get('created_at', '')`. -/
def createdKey (it : Item) : String := it.created_at.getD ""

/-- Lexicographic strict order on character lists: Python's `str` comparison
compares code points position by position, a proper prefix being smaller. -/
def charListLt : List Char → List Char → Bool
  | _, [] => false
  | [], _ :: _ => true
  | a :: as, b :: bs => a < b || (a == b && charListLt as bs)

/-- Python string `<` (lexicographic by code point). -/
def pyStrLt (a b : String) : Bool := charListLt a.data b.data

/-- Python string `<=`: the order is total, so `a <= b` iff `not (b < a)`. -/
def pyStrLe (a b : String) : Bool := !(pyStrLt b a)

/-- `tasks.sort(key=lambda x: x.get('created_at', ''), reverse=True)`:
Python's stable sort in descending key order (equal keys keep their original
relative order, which stable merge sort with this comparator reproduces). -/
def sortNewestFirst (l : List Item) : List Item :=
  l.mergeSort (fun a b => pyStrLe (createdKey b) (createdKey a))

/-- `dynamodb_helpers.list_tasks`, applied to the page of items returned by
the table scan: sorts them newest first.  (Pagination plumbing returns the
scan's `LastEvaluatedKey` unchanged and is not modelled.) -/
def list_tasks (scanned : List Item) : List Item :=
  sortNewestFirst scanned

/-! ### The agent call (`invoke_agent` in `worker_lambda.py`) -/

/-- The JSON body the agent runtime streams back, as read by
`response_body.get(...)`: every field may be absent. -/
structure AgentBody where
  response : Option String := none
  vendors : Option (List Vendor) := none
  emails : Option (List Email) := none
  emails_sent : Option Nat := none
deriving Repr, DecidableEq

/-- Observed outcome of the single `invoke_agent_runtime` call plus the
stream read / decode / `json.loads` step.
* `ok sc body`: the call returned; `sc` is the status code the code extracts
  (`none` when neither `statusCode` nor the HTTP metadata code is present);
  `body = none` models an absent response stream (treated as `{}`).
* `raised msg`: the call, the stream read, the decode or the JSON parse raised
  an exception whose `str` is `msg`. -/
inductive AgentHttp where
  | ok (status_code : Option Int) (body : Option AgentBody)
  | raised (msg : String)
deriving Repr, DecidableEq

/-- The dict `invoke_agent` returns on success. -/
structure AgentResult where
  response : String
  vendors : List Vendor
  emails_sent : Nat
deriving Repr, DecidableEq

/-- Python's f-string rendering of the extracted status code
(`f"Agent returned status {status_code}"`): `None` prints as `"None"`. -/
def statusRepr : Option Int → String
  | none => "None"
  | some n => toString n

/-- Lines 170-175 of `worker_lambda.py`: for each vendor, in order,
`vendor['emails'] = [e for e in emails if e.get('recipient') == vendor_email]`
where `vendor_email = vendor.get('email', '')`.  (In Python, an email whose
`recipient` key is absent compares unequal to any string.) -/
def correlateEmails (vendors : List Vendor) (emails : List Email) : List Vendor :=
  vendors.map (fun v =>
    { v with emails := emails.filter (fun e => e.recipient == some (v.email.getD "")) })

/-- `worker_lambda.invoke_agent`: raises (`.error`) when the transport raised,
or when the extracted status code is not 200 (`status_code != 200`, so a
missing code also raises); otherwise extracts the payload fields with their
defaults and correlates emails to vendors. -/
def invoke_agent (raw : AgentHttp) : Except String AgentResult :=
  match raw with
  | .raised msg => .error msg
  | .ok sc body =>
    if sc == some 200 then
      let b := body.getD {}
      .ok { response := b.response.getD ""
            vendors := correlateEmails (b.vendors.getD []) (b.emails.getD [])
            emails_sent := b.emails_sent.getD 0 }
    else
      .error ("Agent returned status " ++ statusRepr sc)

/-! ### The Processing Handler (`worker_lambda.lambda_handler`) -/

/-- The worker's HTTP-shaped return value (only the status code is needed by
the claims; the JSON body is determined by the branch taken). -/
structure WorkerResp where
  statusCode : Nat
deriving Repr, DecidableEq

/-- One worker run: the response, the final store, and — as an observation of
the run — the list of `status` values passed to `update_task_status`, in call
order. -/
structure WorkerRun where
  resp : WorkerResp
  store : Store
  statusWrites : List String
deriving Repr, DecidableEq

/-- `worker_lambda.lambda_handler` on event
`{task_id: ev_task_id, description: ev_description}` against store `s`, with
`agent` the outcome of the one AgentCore call and `t` the clock.
Store writes are modelled as succeeding (the `except` branch is entered only
through `invoke_agent`). -/
def worker_lambda_handler (s : Store) (ev_task_id ev_description : Option String)
    (agent : AgentHttp) (t : Nat → String) : WorkerRun :=
  if !pyTruthy ev_task_id || !pyTruthy ev_description then
    ⟨⟨400⟩, s, []⟩
  else
    let tid := ev_task_id.getD ""
    match s.get tid with
    | none => ⟨⟨404⟩, s, []⟩
    | some _ =>
      let s1 := update_task_status s tid "processing" none (t 0)
      let s2 := add_task_event s1 tid "Agent processing started" "info" (t 1)
      match invoke_agent agent with
      | .ok r =>
        let s3 := update_task_with_agent_response s2 tid r.response
          (some r.vendors) r.emails_sent (t 2)
        let s4 := update_task_status s3 tid "completed" none (t 3)
        let s5 := add_task_event s4 tid "Agent completed task successfully" "success" (t 4)
        ⟨⟨200⟩, s5, ["processing", "completed"]⟩
      | .error msg =>
        let s3 := update_task_status s2 tid "error" (some msg) (t 2)
        let s4 := add_task_event s3 tid ("Agent error: " ++ msg) "error" (t 3)
        ⟨⟨500⟩, s4, ["processing", "error"]⟩

/-! ### The Intake Handler (`lambda_function.py`, in-memory `TASKS` store) -/

/-- The `description` field of the parsed request body, distinguishing a
missing key, an explicit JSON `null`, and a string value — the three shapes
the claims name.  `body.get("description", "")` yields `""` for `missing`,
`None` for `null`, and the string itself for `strv`. -/
inductive DescField where
  | missing
  | null
  | strv (s : String)
deriving Repr, DecidableEq

/-- `if not description` on `body.get("description", "")`. -/
def descTruthy : DescField → Bool
  | .missing => false
  | .null => false
  | .strv s => !(s == "")

/-- The string the handler goes on to use when the description is truthy. -/
def descStr : DescField → String
  | .strv s => s
  | _ => ""

/-- Python substring test `needle in hay` via `splitOn`: the needle occurs
iff splitting on it yields more than one piece. -/
def containsSub (hay needle : String) : Bool :=
  (hay.splitOn needle).length != 1

/-- The intake handler's HTTP response, keeping the JSON body fields the
claims mention (`id`, `status`, `message`). -/
structure ApiResp where
  statusCode : Nat
  bodyId : Option String := none
  bodyStat : Option String := none
  bodyMessage : Option String := none
deriving Repr, DecidableEq

/-- `lambda_function._invoke_agent(task_id, ...)`: mutates the `TASKS` store
and returns it, or re-raises (`.error (msg, mutated store)`).
* 200 outcome: marks the task completed, stores `agent_response`, appends the
  success event, and appends the extra info event when the (lowercased)
  response text contains `"vendor"`.
* otherwise the in-`try` raise (non-200) or the transport exception lands in
  the `except` block, which marks the task `error`, appends the error event,
  and re-raises. -/
def api_invoke_agent (s : Store) (task_id : String) (raw : AgentHttp)
    (t : Nat → String) : Except (String × Store) Store :=
  match raw with
  | .ok sc body =>
    if sc == some 200 then
      let respText := (body.getD {}).response.getD ""
      let s1 := dictUpdate s task_id (fun it =>
        { it with
          status := some "completed",
          agent_response := some respText,
          updated_at := some (t 0),
          events := some ((it.events.getD []) ++
            [⟨t 1, "Agent completed task", "success"⟩]) })
      if containsSub respText.toLower "vendor" then
        .ok (dictUpdate s1 task_id (fun it =>
          { it with events := some ((it.events.getD []) ++
              [⟨t 2, "Vendors contacted - awaiting responses", "info"⟩]) }))
      else
        .ok s1
    else
      let msg := "Agent returned status " ++ statusRepr sc
      .error (msg, dictUpdate s task_id (fun it =>
        { it with
          status := some "error",
          updated_at := some (t 0),
          events := some ((it.events.getD []) ++
            [⟨t 1, "Agent error: " ++ msg, "error"⟩]) }))
  | .raised msg =>
    .error (msg, dictUpdate s task_id (fun it =>
      { it with
        status := some "error",
        updated_at := some (t 0),
        events := some ((it.events.getD []) ++
          [⟨t 1, "Agent error: " ++ msg, "error"⟩]) }))

/-- Outcome of `lambda_client.invoke(..., InvocationType='Event')`: either the
asynchronous enqueue call returned, or it raised and the handler falls back to
a synchronous `_invoke_agent` call whose observed outcome is `sync`. -/
inductive Handoff where
  | asyncOk
  | asyncFail (sync : AgentHttp)
deriving Repr, DecidableEq

/-- The task record `handle_create_task` builds and persists
(`TASKS[task_id] = task`) before attempting the hand-off. -/
def seedTask (task_id desc : String) (t : Nat → String) : Item :=
  { id := task_id
    description := some desc
    status := some "processing"
    vendors := some []
    quotes := some []
    emails_sent := some 0
    created_at := some (t 0)
    updated_at := some (t 1)
    events := some [⟨t 2, "Task created", "info"⟩] }

/-- `lambda_function.handle_create_task` against store `s`, with `d` the
parsed body's description field, `task_id` the freshly drawn `uuid4`, `ho`
the observed hand-off outcome and `t` the clock. -/
def handle_create_task (s : Store) (d : DescField) (task_id : String)
    (ho : Handoff) (t : Nat → String) : ApiResp × Store :=
  if !descTruthy d then
    ({ statusCode := 400 }, s)
  else
    let s0 := dictPut s task_id (seedTask task_id (descStr d) t)
    let s1 :=
      match ho with
      | .asyncOk =>
        -- async invoke succeeded: append the queued event, set status "queued"
        dictUpdate s0 task_id (fun it =>
          { it with
            events := some ((it.events.getD []) ++
              [⟨t 3, "Agent queued for processing", "info"⟩]),
            status := some "queued" })
      | .asyncFail raw =>
        -- async invoke raised: best-effort synchronous fallback
        match api_invoke_agent s0 task_id raw (fun n => t (n + 3)) with
        | .ok s' =>
          dictUpdate s' task_id (fun it =>
            { it with events := some ((it.events.getD []) ++
                [⟨t 7, "Agent invoked synchronously after async invoke failed",
                  "warning"⟩]) })
        | .error (msg, s') =>
          dictUpdate s' task_id (fun it =>
            { it with
              status := some "error",
              events := some ((it.events.getD []) ++
                [⟨t 7, "Error invoking agent: " ++ msg, "error"⟩]) })
    let s2 := dictUpdate s1 task_id (fun it => { it with updated_at := some (t 8) })
    let finalStat :=
      match s2.get task_id with
      | some it => it.status.getD ""
      | none => ""
    if finalStat == "queued" then
      ({ statusCode := 202, bodyId := some task_id, bodyStat := some finalStat,
         bodyMessage := some "Task queued for processing" }, s2)
    else
      ({ statusCode := 200, bodyId := some task_id, bodyStat := some finalStat,
         bodyMessage := some "Task created successfully" }, s2)

/-- `lambda_function.handle_get_task`: 404 with no task body when absent,
200 with the full task otherwise. -/
def handle_get_task (s : Store) (task_id : String) : Nat × Option Item :=
  match s.get task_id with
  | none => (404, none)
  | some it => (200, some it)

/-- `lambda_function.handle_list_tasks`: `list(TASKS.values())` (insertion
order) sorted newest first. -/
def handle_list_tasks (s : Store) : List Item :=
  sortNewestFirst (s.map (fun kv => kv.2))

/-! ### Order facts about the modelled Python string comparison -/

theorem charListLt_iff_lex :
    ∀ as bs : List Char, charListLt as bs = true ↔ List.Lex (· < ·) as bs
  | [], [] => iff_of_false (by simp [charListLt]) (List.Lex.not_nil_right _ _)
  | _ :: _, [] => iff_of_false (by simp [charListLt]) (List.Lex.not_nil_right _ _)
  | [], b :: bs => iff_of_true rfl List.Lex.nil
  | a :: as, b :: bs => by
    simp only [charListLt, Bool.or_eq_true, Bool.and_eq_true, beq_iff_eq,
      decide_eq_true_eq, charListLt_iff_lex as bs]
    constructor
    · rintro (h | ⟨rfl, h⟩)
      · exact List.Lex.rel h
      · exact List.Lex.cons h
    · intro h
      cases h with
      | rel h => exact Or.inl h
      | cons h => exact Or.inr ⟨rfl, h⟩

theorem charListLt_eq_false_iff (as bs : List Char) :
    charListLt as bs = false ↔ ¬ List.Lex (· < ·) as bs := by
  rw [← charListLt_iff_lex]
  simp

theorem pyStrLe_trans {a b c : String} (h1 : pyStrLe a b = true)
    (h2 : pyStrLe b c = true) : pyStrLe a c = true := by
  simp only [pyStrLe, pyStrLt, Bool.not_eq_true', charListLt_eq_false_iff] at h1 h2 ⊢
  intro hca
  rcases trichotomous_of (List.Lex (· < ·) : List Char → List Char → Prop)
    c.data b.data with h | h | h
  · exact h2 h
  · exact h1 (h ▸ hca)
  · exact h1 (IsTrans.trans _ _ _ h hca)

theorem pyStrLe_total (a b : String) : (pyStrLe a b || pyStrLe b a) = true := by
  simp only [pyStrLe, pyStrLt, Bool.or_eq_true, Bool.not_eq_true',
    charListLt_eq_false_iff]
  by_cases h : List.Lex (· < ·) b.data a.data
  · exact Or.inr (asymm h)
  · exact Or.inl h

theorem pyStrLt_of_le_of_ne {a b : String} (h : pyStrLe a b = true) (hne : a ≠ b) :
    pyStrLt a b = true := by
  simp only [pyStrLe, pyStrLt, Bool.not_eq_true', charListLt_eq_false_iff] at h
  rw [pyStrLt, charListLt_iff_lex]
  have hd : a.data ≠ b.data := fun hd => hne (String.ext hd)
  rcases trichotomous_of (List.Lex (· < ·) : List Char → List Char → Prop)
    a.data b.data with h' | h' | h'
  · exact h'
  · exact absurd h' hd
  · exact absurd h' h

/-! ### Store lookup lemmas -/

theorem get_dbUpdate_self (s : Store) (k : String) (f : Item → Item) :
    Store.get (dbUpdate s k f) k = some (f ((Store.get s k).getD { id := k })) := by
  induction s with
  | nil => simp [Store.get, dbUpdate]
  | cons kv rest ih =>
    by_cases h : kv.1 = k
    · simp [Store.get, dbUpdate, h]
    · have hb : (kv.1 == k) = false := by simp [h]
      simp only [Store.get, dbUpdate, hb, Bool.false_eq_true, if_false] at ih ⊢
      rw [List.find?_cons_of_neg _ (by simp [hb]),
        List.find?_cons_of_neg _ (by simp [hb])]
      exact ih

theorem length_dbUpdate_of_missing (s : Store) (k : String) (f : Item → Item)
    (h : Store.get s k = none) : (dbUpdate s k f).length = s.length + 1 := by
  induction s with
  | nil => simp [dbUpdate]
  | cons kv rest ih =>
    simp only [Store.get] at h ih
    by_cases hk : kv.1 = k
    · exfalso
      rw [List.find?_cons_of_pos _ (by simp [hk])] at h
      exact Option.noConfusion h
    · rw [List.find?_cons_of_neg _ (by simp [hk])] at h
      simp only [dbUpdate, List.length_cons]
      rw [if_neg (by simp [hk])]
      simp [ih h]

theorem get_dictUpdate_self (s : Store) (k : String) (f : Item → Item) :
    Store.get (dictUpdate s k f) k = (Store.get s k).map f := by
  induction s with
  | nil => simp [Store.get, dictUpdate]
  | cons kv rest ih =>
    by_cases h : kv.1 = k
    · simp [Store.get, dictUpdate, h]
    · have hb : (kv.1 == k) = false := by simp [h]
      simp only [Store.get, dictUpdate, hb, Bool.false_eq_true, if_false] at ih ⊢
      rw [List.find?_cons_of_neg _ (by simp [hb]),
        List.find?_cons_of_neg _ (by simp [hb])]
      exact ih

theorem get_dictPut_self (s : Store) (k : String) (v : Item) :
    Store.get (dictPut s k v) k = some v := by
  induction s with
  | nil => simp [Store.get, dictPut]
  | cons kv rest ih =>
    by_cases h : kv.1 = k
    · simp [Store.get, dictPut, h]
    · have hb : (kv.1 == k) = false := by simp [h]
      simp only [Store.get, dictPut, hb, Bool.false_eq_true, if_false] at ih ⊢
      rw [List.find?_cons_of_neg _ (by simp [hb])]
      exact ih

/-! ### The helper updates preserve the key and compose with lookup -/

theorem applyStatus_id (st : String) (em : Option String) (now : String)
    (it : Item) : (applyStatus st em now it).id = it.id := by
  unfold applyStatus
  split <;> rfl

theorem applyEvent_id (message etype now : String) (it : Item) :
    (applyEvent message etype now it).id = it.id := rfl

theorem applyAgentResp_id (ar : String) (vendors : Option (List Vendor))
    (es : Nat) (now : String) (it : Item) :
    (applyAgentResp ar vendors es now it).id = it.id := by
  cases vendors with
  | none => rfl
  | some vs => by_cases hv : vs.isEmpty <;> simp [applyAgentResp, hv]

theorem get_update_task_status {s : Store} {tid : String} {it : Item}
    (h : Store.get s tid = some it) (st : String) (em : Option String)
    (now : String) :
    Store.get (update_task_status s tid st em now) tid =
      some (applyStatus st em now it) := by
  rw [update_task_status, get_dbUpdate_self, h]
  rfl

theorem get_add_task_event {s : Store} {tid : String} {it : Item}
    (h : Store.get s tid = some it) (message etype now : String) :
    Store.get (add_task_event s tid message etype now) tid =
      some (applyEvent message etype now it) := by
  rw [add_task_event, get_dbUpdate_self, h]
  rfl

theorem get_update_task_with_agent_response {s : Store} {tid : String} {it : Item}
    (h : Store.get s tid = some it) (ar : String) (vendors : Option (List Vendor))
    (es : Nat) (now : String) :
    Store.get (update_task_with_agent_response s tid ar vendors es now) tid =
      some (applyAgentResp ar vendors es now it) := by
  rw [update_task_with_agent_response, get_dbUpdate_self, h]
  rfl

/-! ### The listing sort: permutation and descending order -/

theorem sortNewestFirst_perm (l : List Item) : (sortNewestFirst l).Perm l :=
  List.mergeSort_perm l _

theorem sortNewestFirst_sorted (l : List Item) :
    (sortNewestFirst l).Pairwise
      (fun a b => pyStrLe (createdKey b) (createdKey a) = true) := by
  have h := @List.sorted_mergeSort Item
    (fun a b : Item => pyStrLe (createdKey b) (createdKey a))
    (fun a b c h1 h2 => pyStrLe_trans h2 h1)
    (fun a b => pyStrLe_total (createdKey b) (createdKey a))
    l
  exact h

/-! ### Reduction lemmas for the worker handler's three paths -/

theorem worker_run_eq_of_ok {tid desc : String} (s : Store) (agent : AgentHttp)
    {r : AgentResult} (t : Nat → String) {it : Item}
    (htid : tid ≠ "") (hdesc : desc ≠ "")
    (hfound : Store.get s tid = some it)
    (hagent : invoke_agent agent = .ok r) :
    worker_lambda_handler s (some tid) (some desc) agent t =
      ⟨⟨200⟩,
        add_task_event
          (update_task_status
            (update_task_with_agent_response
              (add_task_event
                (update_task_status s tid "processing" none (t 0))
                tid "Agent processing started" "info" (t 1))
              tid r.response (some r.vendors) r.emails_sent (t 2))
            tid "completed" none (t 3))
          tid "Agent completed task successfully" "success" (t 4),
        ["processing", "completed"]⟩ := by
  unfold worker_lambda_handler
  rw [if_neg (by simp [pyTruthy, htid, hdesc])]
  simp only [Option.getD_some, hfound, hagent]

theorem worker_run_eq_of_error {tid desc : String} (s : Store) (agent : AgentHttp)
    {msg : String} (t : Nat → String) {it : Item}
    (htid : tid ≠ "") (hdesc : desc ≠ "")
    (hfound : Store.get s tid = some it)
    (hagent : invoke_agent agent = .error msg) :
    worker_lambda_handler s (some tid) (some desc) agent t =
      ⟨⟨500⟩,
        add_task_event
          (update_task_status
            (add_task_event
              (update_task_status s tid "processing" none (t 0))
              tid "Agent processing started" "info" (t 1))
            tid "error" (some msg) (t 2))
          tid ("Agent error: " ++ msg) "error" (t 3),
        ["processing", "error"]⟩ := by
  unfold worker_lambda_handler
  rw [if_neg (by simp [pyTruthy, htid, hdesc])]
  simp only [Option.getD_some, hfound, hagent]

/-! ### Claim theorems for the worker (Processing Handler) -/

/-- C7: a `processTask` hand-off naming a task id that is not in the store
returns the 404 NotFound response, leaves the store exactly as it was, and
performs no status write. -/
theorem worker_unknown_id_not_found (s : Store) (tid desc : String)
    (agent : AgentHttp) (t : Nat → String)
    (htid : tid ≠ "") (hdesc : desc ≠ "")
    (hmiss : Store.get s tid = none) :
    worker_lambda_handler s (some tid) (some desc) agent t = ⟨⟨404⟩, s, []⟩ := by
  unfold worker_lambda_handler
  rw [if_neg (by simp [pyTruthy, htid, hdesc])]
  simp only [Option.getD_some, hmiss]

/-- Witness for C7: the worker invoked on an empty store returns 404 and
changes nothing. -/
theorem worker_unknown_id_not_found_witness :
    worker_lambda_handler [] (some "t0") (some "mow lawn") (.raised "x")
      (fun _ => "TS") = ⟨⟨404⟩, [], []⟩ :=
  worker_unknown_id_not_found [] "t0" "mow lawn" (.raised "x") (fun _ => "TS")
    (by decide) (by decide) rfl

/-- C1 (amended): within any single worker invocation the sequence of `status`
values written is empty (validation failure or unknown id) or exactly
`processing` followed by one terminal status — so a single run only moves a
task forward along pending → processing → {completed, error}.  The writes are
unconditional, however, so terminal states are not protected against a later
invocation on the same task id (see the counterexample). -/
theorem worker_status_writes_forward (s : Store)
    (ev_task_id ev_description : Option String) (agent : AgentHttp)
    (t : Nat → String) :
    (worker_lambda_handler s ev_task_id ev_description agent t).statusWrites = [] ∨
    (worker_lambda_handler s ev_task_id ev_description agent t).statusWrites =
      ["processing", "completed"] ∨
    (worker_lambda_handler s ev_task_id ev_description agent t).statusWrites =
      ["processing", "error"] := by
  unfold worker_lambda_handler
  by_cases hc : (!pyTruthy ev_task_id || !pyTruthy ev_description) = true
  · rw [if_pos hc]
    exact Or.inl rfl
  · rw [if_neg hc]
    rcases hget : Store.get s (ev_task_id.getD "") with _ | it
    · simp only [hget]
      exact Or.inl trivial
    · simp only [hget]
      rcases hinv : invoke_agent agent with msg | r
      · simp only [hinv]
        exact Or.inr (Or.inr trivial)
      · simp only [hinv]
        exact Or.inr (Or.inl trivial)

/-- Counterexample to C1 as stated: a task whose status is the terminal
`completed` is re-processed by a second worker invocation on the same id —
`update_task_status` has no condition expression — and ends in `error`. -/
theorem worker_reprocesses_completed_task :
    Option.bind (Store.get [("t1", { id := "t1", status := some "completed" })] "t1")
      Item.status = some "completed" ∧
    Option.bind
      (Store.get (worker_lambda_handler [("t1", { id := "t1", status := some "completed" })]
        (some "t1") (some "clean gutters") (.raised "boom") (fun _ => "TS")).store
        "t1") Item.status = some "error" := by
  decide

/-- C3: when the agent call fails with message `msg` (raise, non-200 status or
malformed payload all surface as an exception with a non-empty `str`), the
task ends with status `error`, `error_message = msg`, and its `vendors` and
`agent_response` attributes keep their prior values (in particular they stay
absent if they were absent). -/
theorem worker_agent_failure_sets_error (s : Store) (tid desc msg : String)
    (agent : AgentHttp) (t : Nat → String) (it : Item)
    (htid : tid ≠ "") (hdesc : desc ≠ "") (hmsg : msg ≠ "")
    (hfound : Store.get s tid = some it)
    (hagent : invoke_agent agent = .error msg) :
    ∃ fin : Item,
      Store.get (worker_lambda_handler s (some tid) (some desc) agent t).store tid
        = some fin ∧
      fin.status = some "error" ∧
      fin.error_message = some msg ∧
      fin.vendors = it.vendors ∧
      fin.agent_response = it.agent_response := by
  rw [worker_run_eq_of_error s agent t htid hdesc hfound hagent]
  have g1 := get_update_task_status hfound "processing" none (t 0)
  have g2 := get_add_task_event g1 "Agent processing started" "info" (t 1)
  have g3 := get_update_task_status g2 "error" (some msg) (t 2)
  have g4 := get_add_task_event g3 ("Agent error: " ++ msg) "error" (t 3)
  refine ⟨_, g4, ?_, ?_, ?_, ?_⟩ <;>
    simp [applyStatus, applyEvent, pyTruthy, hmsg]

/-- Witness for C3: a found task with absent `vendors`/`agent_response`, agent
raising "boom"; the final record is in `error` with the message and both
fields still absent. -/
theorem worker_agent_failure_sets_error_witness :
    ∃ fin : Item,
      Store.get (worker_lambda_handler [("t9", { id := "t9" })] (some "t9")
        (some "fix fence") (.raised "boom") (fun _ => "TS")).store "t9"
        = some fin ∧
      fin.status = some "error" ∧
      fin.error_message = some "boom" ∧
      fin.vendors = Item.vendors { id := "t9" } ∧
      fin.agent_response = Item.agent_response { id := "t9" } :=
  worker_agent_failure_sets_error [("t9", { id := "t9" })] "t9" "fix fence" "boom"
    (.raised "boom") (fun _ => "TS") { id := "t9" }
    (by decide) (by decide) (by decide) rfl rfl

/-- C4: when the agent call succeeds (result `r`) and the store writes go
through, the task ends with status `completed`, an `agent_response` attribute
that is present (`some r.response`, possibly the empty string but never
absent), and an event list containing the "processing started" event strictly
before the "completed" event. -/
theorem worker_agent_success_completes (s : Store) (tid desc : String)
    (agent : AgentHttp) (r : AgentResult) (t : Nat → String) (it : Item)
    (htid : tid ≠ "") (hdesc : desc ≠ "")
    (hfound : Store.get s tid = some it)
    (hagent : invoke_agent agent = .ok r) :
    ∃ fin : Item,
      Store.get (worker_lambda_handler s (some tid) (some desc) agent t).store tid
        = some fin ∧
      fin.status = some "completed" ∧
      fin.agent_response = some r.response ∧
      ∃ (l1 l2 l3 : List Event) (e1 e2 : Event),
        fin.events = some (l1 ++ e1 :: (l2 ++ e2 :: l3)) ∧
        e1.message = "Agent processing started" ∧
        e2.message = "Agent completed task successfully" := by
  rw [worker_run_eq_of_ok s agent t htid hdesc hfound hagent]
  have g1 := get_update_task_status hfound "processing" none (t 0)
  have g2 := get_add_task_event g1 "Agent processing started" "info" (t 1)
  have g3 := get_update_task_with_agent_response g2 r.response (some r.vendors)
    r.emails_sent (t 2)
  have g4 := get_update_task_status g3 "completed" none (t 3)
  have g5 := get_add_task_event g4 "Agent completed task successfully" "success"
    (t 4)
  refine ⟨_, g5, ?_, ?_,
    it.events.getD [], [], [],
    ⟨t 1, "Agent processing started", "info"⟩,
    ⟨t 4, "Agent completed task successfully", "success"⟩, ?_, rfl, rfl⟩
  all_goals simp [applyStatus, applyEvent, applyAgentResp, pyTruthy]
  all_goals try (split <;> simp)

/-- Witness for C4: a pending task, agent returning 200 with an empty-string
response; the final record is completed with `agent_response = some ""`. -/
theorem worker_agent_success_completes_witness :
    ∃ fin : Item,
      Store.get (worker_lambda_handler [("t4", { id := "t4", status := some "pending" })]
        (some "t4") (some "trim hedge")
        (.ok (some 200) (some { emails_sent := some 2 })) (fun _ => "TS")).store
        "t4" = some fin ∧
      fin.status = some "completed" ∧
      fin.agent_response = some (AgentResult.response
        { response := "", vendors := [], emails_sent := 2 }) ∧
      ∃ (l1 l2 l3 : List Event) (e1 e2 : Event),
        fin.events = some (l1 ++ e1 :: (l2 ++ e2 :: l3)) ∧
        e1.message = "Agent processing started" ∧
        e2.message = "Agent completed task successfully" :=
  worker_agent_success_completes [("t4", { id := "t4", status := some "pending" })]
    "t4" "trim hedge" (.ok (some 200) (some { emails_sent := some 2 }))
    { response := "", vendors := [], emails_sent := 2 } (fun _ => "TS")
    { id := "t4", status := some "pending" }
    (by decide) (by decide) rfl rfl

/-! ### Claim theorems about the Task Store helpers -/

theorem applyStatus_eq (st : String) (em : Option String) (now : String)
    (it : Item) :
    applyStatus st em now it =
      { it with
        status := some st,
        updated_at := some now,
        error_message := if pyTruthy em then em else it.error_message } := by
  unfold applyStatus
  split <;> simp [*]

theorem applyAgentResp_eq_of_empty (ar : String) (es : Nat) (now : String)
    (it : Item) {vendors : Option (List Vendor)}
    (hv : vendors = none ∨ vendors = some []) :
    applyAgentResp ar vendors es now it =
      { it with
        agent_response := some ar,
        emails_sent := some es,
        updated_at := some now } := by
  rcases hv with rfl | rfl <;> simp [applyAgentResp]

theorem applyAgentResp_core (ar : String) (vendors : Option (List Vendor))
    (es : Nat) (now : String) (it : Item) :
    (applyAgentResp ar vendors es now it).agent_response = some ar ∧
    (applyAgentResp ar vendors es now it).emails_sent = some es ∧
    (applyAgentResp ar vendors es now it).updated_at = some now ∧
    (applyAgentResp ar vendors es now it).description = it.description ∧
    (applyAgentResp ar vendors es now it).events = it.events ∧
    (applyAgentResp ar vendors es now it).created_at = it.created_at := by
  cases vendors with
  | none => simp [applyAgentResp]
  | some vs => by_cases hv : vs.isEmpty <;> simp [applyAgentResp, hv]

/-- Counterexample to C5 as stated: `update_item` carries no condition
expression, so updating a task id that is absent does not fail with NotFound —
it creates a fresh record holding the id and the written attributes. -/
theorem update_missing_id_creates_record :
    update_task_status [] "t5" "processing" none "T0" =
      [("t5", { id := "t5", status := some "processing", updated_at := some "T0" })] ∧
    update_task_with_agent_response [] "t5b" "done" (some []) 2 "T1" =
      [("t5b", { id := "t5b", agent_response := some "done",
                 emails_sent := some 2, updated_at := some "T1" })] := by
  decide

/-- C5 (amended): a partial update (`update_task_status` or
`update_task_with_agent_response`) on a task id that is not in the store does
not fail: DynamoDB upserts, so the store grows by one record that carries the
id and the written attributes only — it has no description, events or
created_at. -/
theorem update_missing_id_upserts (s : Store) (tid st ar now : String)
    (em : Option String) (vendors : Option (List Vendor)) (es : Nat)
    (hmiss : Store.get s tid = none) :
    (∃ fin : Item,
      Store.get (update_task_status s tid st em now) tid = some fin ∧
      fin.id = tid ∧ fin.status = some st ∧ fin.updated_at = some now ∧
      fin.description = none ∧ fin.events = none ∧ fin.created_at = none) ∧
    (update_task_status s tid st em now).length = s.length + 1 ∧
    (∃ fin : Item,
      Store.get (update_task_with_agent_response s tid ar vendors es now) tid
        = some fin ∧
      fin.id = tid ∧ fin.agent_response = some ar ∧ fin.emails_sent = some es ∧
      fin.updated_at = some now ∧ fin.description = none ∧ fin.events = none ∧
      fin.created_at = none) ∧
    (update_task_with_agent_response s tid ar vendors es now).length
      = s.length + 1 := by
  have h1 := get_dbUpdate_self s tid (applyStatus st em now)
  have h2 := get_dbUpdate_self s tid (applyAgentResp ar vendors es now)
  rw [hmiss] at h1 h2
  simp only [Option.getD_none] at h1 h2
  rcases applyAgentResp_core ar vendors es now { id := tid } with
    ⟨c1, c2, c3, c4, c5, c6⟩
  refine ⟨⟨_, h1, ?_, ?_, ?_, ?_, ?_, ?_⟩,
    length_dbUpdate_of_missing s tid _ hmiss,
    ⟨_, h2, ?_, c1, c2, c3, c4, c5, c6⟩,
    length_dbUpdate_of_missing s tid _ hmiss⟩
  · rw [applyStatus_eq]
  · rw [applyStatus_eq]
  · rw [applyStatus_eq]
  · rw [applyStatus_eq]
  · rw [applyStatus_eq]
  · rw [applyStatus_eq]
  · rw [applyAgentResp_id]

/-- Witness for C5 (amended): updating status of "w5" against a one-item store
not containing "w5" creates a second record. -/
theorem update_missing_id_upserts_witness :
    (∃ fin : Item,
      Store.get (update_task_status [("other", { id := "other" })] "w5" "error"
        (some "oops") "T3") "w5" = some fin ∧
      fin.id = "w5" ∧ fin.status = some "error" ∧ fin.updated_at = some "T3" ∧
      fin.description = none ∧ fin.events = none ∧ fin.created_at = none) ∧
    (update_task_status [("other", { id := "other" })] "w5" "error" (some "oops") "T3").length
      = ([("other", { id := "other" })] : Store).length + 1 ∧
    (∃ fin : Item,
      Store.get (update_task_with_agent_response [("other", { id := "other" })] "w5" "hi"
        none 0 "T3") "w5" = some fin ∧
      fin.id = "w5" ∧ fin.agent_response = some "hi" ∧ fin.emails_sent = some 0 ∧
      fin.updated_at = some "T3" ∧ fin.description = none ∧ fin.events = none ∧
      fin.created_at = none) ∧
    (update_task_with_agent_response [("other", { id := "other" })] "w5" "hi" none 0 "T3").length
      = ([("other", { id := "other" })] : Store).length + 1 :=
  update_missing_id_upserts [("other", { id := "other" })] "w5" "error" "hi" "T3"
    (some "oops") none 0 rfl

/-- C10: `update_task_with_agent_response` with an empty-list (or `None`)
`vendors` argument leaves the `vendors` attribute untouched — an existing
value is never overwritten with an empty list — while `agent_response`,
`emails_sent` and `updated_at` are always written. -/
theorem update_agent_response_empty_vendors_frame (s : Store) (tid ar : String)
    (vendors : Option (List Vendor)) (es : Nat) (now : String) (it : Item)
    (hfound : Store.get s tid = some it)
    (hv : vendors = none ∨ vendors = some []) :
    ∃ fin : Item,
      Store.get (update_task_with_agent_response s tid ar vendors es now) tid
        = some fin ∧
      fin.vendors = it.vendors ∧
      fin.agent_response = some ar ∧
      fin.emails_sent = some es ∧
      fin.updated_at = some now := by
  have g := get_update_task_with_agent_response hfound ar vendors es now
  rw [applyAgentResp_eq_of_empty ar es now it hv] at g
  exact ⟨_, g, rfl, rfl, rfl, rfl⟩

/-- Witness for C10: a task whose stored `vendors` is a one-element list,
updated with `vendors = []`; the list survives. -/
theorem update_agent_response_empty_vendors_frame_witness :
    ∃ fin : Item,
      Store.get (update_task_with_agent_response
        [("t7", { id := "t7", vendors := some [{ email := some "v@x", payload := "Acme" }] })]
        "t7" "done" (some []) 0 "T6") "t7" = some fin ∧
      fin.vendors = Item.vendors
        { id := "t7", vendors := some [{ email := some "v@x", payload := "Acme" }] } ∧
      fin.agent_response = some "done" ∧
      fin.emails_sent = some 0 ∧
      fin.updated_at = some "T6" :=
  update_agent_response_empty_vendors_frame
    [("t7", { id := "t7", vendors := some [{ email := some "v@x", payload := "Acme" }] })]
    "t7" "done" (some []) 0 "T6"
    { id := "t7", vendors := some [{ email := some "v@x", payload := "Acme" }] }
    rfl (Or.inr rfl)

/-- C6: the worker's vendor/email correlation assigns to each vendor, in
order, exactly the subsequence of agent emails whose recipient equals that
vendor's address — order preserved, no deduplication (counts of matching
emails are preserved) — and on the spec's example vendors a, b with emails to
a, a, c, vendor a receives 2 emails and vendor b receives 0. -/
theorem correlate_vendor_emails (vendors : List Vendor) (emails : List Email) :
    List.Forall₂ (fun v w =>
      w.emails.Sublist emails ∧
      (∀ e ∈ w.emails, e.recipient = some (v.email.getD "")) ∧
      (∀ e : Email, e.recipient = some (v.email.getD "") →
        w.emails.count e = emails.count e))
      vendors (correlateEmails vendors emails) ∧
    (correlateEmails [{ email := some "a" }, { email := some "b" }]
        [{ recipient := some "a" }, { recipient := some "a" },
         { recipient := some "c" }]).map (fun v => v.emails.length) = [2, 0] := by
  constructor
  · rw [correlateEmails, List.forall₂_map_right_iff]
    rw [List.forall₂_same]
    intro v hvmem
    refine ⟨List.filter_sublist _, ?_, ?_⟩
    · intro e he
      have hm := List.of_mem_filter he
      simpa using hm
    · intro e he
      rw [List.count_filter (by simpa using he)]
  · decide

/-! ### Claim theorems for the Intake Handler -/

/-- C8: a createTask request whose description is missing, JSON `null`, or the
empty string gets the 400 validation response and the store is left exactly
as it was — no task is persisted. -/
theorem create_task_invalid_description (s : Store) (d : DescField)
    (task_id : String) (ho : Handoff) (t : Nat → String)
    (hd : d = .missing ∨ d = .null ∨ d = .strv "") :
    handle_create_task s d task_id ho t = ({ statusCode := 400 }, s) := by
  rcases hd with rfl | rfl | rfl <;> rfl

/-- Witness for C8: a `null` description against a store holding one task
returns 400 and the store is unchanged. -/
theorem create_task_invalid_description_witness :
    handle_create_task [("keep", { id := "keep" })] .null "w8" .asyncOk (fun _ => "T")
      = ({ statusCode := 400 }, [("keep", { id := "keep" })]) :=
  create_task_invalid_description [("keep", { id := "keep" })] .null "w8" .asyncOk
    (fun _ => "T") (Or.inr (Or.inl rfl))

/-- Counterexample to C2 as stated: on a successful hand-off the persisted
record's status is never "pending" — the seed record carries "processing" —
and the 202 response's body status is "queued", not "pending". -/
theorem create_task_not_pending :
    (handle_create_task [] (.strv "Find a landscaper") "c2" .asyncOk
      (fun _ => "T")).1.statusCode = 202 ∧
    (handle_create_task [] (.strv "Find a landscaper") "c2" .asyncOk
      (fun _ => "T")).1.bodyStat = some "queued" ∧
    (handle_create_task [] (.strv "Find a landscaper") "c2" .asyncOk
      (fun _ => "T")).1.bodyStat ≠ some "pending" ∧
    (seedTask "c2" "Find a landscaper" (fun _ => "T")).status ≠ some "pending" := by
  decide

/-- The synchronous fallback agent call leaves the task either `completed`
(200 outcome) or `error` (any other outcome), never touching its key. -/
theorem api_invoke_agent_status (s : Store) (tid : String) (raw : AgentHttp)
    (t : Nat → String) (it : Item) (h : Store.get s tid = some it) :
    (∀ s', api_invoke_agent s tid raw t = .ok s' →
      ∃ fin : Item, Store.get s' tid = some fin ∧ fin.status = some "completed") ∧
    (∀ msg s', api_invoke_agent s tid raw t = .error (msg, s') →
      ∃ fin : Item, Store.get s' tid = some fin ∧ fin.status = some "error") := by
  cases raw with
  | raised msg =>
    refine ⟨fun s' hs => by simp [api_invoke_agent] at hs, fun m s' hs => ?_⟩
    simp only [api_invoke_agent, Except.error.injEq, Prod.mk.injEq] at hs
    obtain ⟨-, rfl⟩ := hs
    rw [get_dictUpdate_self, h]
    exact ⟨_, rfl, rfl⟩
  | ok sc body =>
    by_cases hsc : (sc == some 200) = true
    · refine ⟨fun s' hs => ?_, fun m s' hs => ?_⟩
      · simp only [api_invoke_agent, hsc, if_true] at hs
        by_cases hv : containsSub ((body.getD {}).response.getD "").toLower "vendor"
          = true
        · rw [if_pos hv] at hs
          simp only [Except.ok.injEq] at hs
          subst hs
          rw [get_dictUpdate_self, get_dictUpdate_self, h]
          exact ⟨_, rfl, rfl⟩
        · rw [if_neg hv] at hs
          simp only [Except.ok.injEq] at hs
          subst hs
          rw [get_dictUpdate_self, h]
          exact ⟨_, rfl, rfl⟩
      · simp only [api_invoke_agent, hsc, if_true] at hs
        by_cases hv : containsSub ((body.getD {}).response.getD "").toLower "vendor"
          = true
        · rw [if_pos hv] at hs
          exact absurd hs (by simp)
        · rw [if_neg hv] at hs
          exact absurd hs (by simp)
    · refine ⟨fun s' hs => ?_, fun m s' hs => ?_⟩
      · simp only [api_invoke_agent, hsc, if_false] at hs
        exact absurd hs (by simp)
      · simp only [api_invoke_agent, hsc, if_false, Except.error.injEq,
          Prod.mk.injEq] at hs
        obtain ⟨-, rfl⟩ := hs
        rw [get_dictUpdate_self, h]
        exact ⟨_, rfl, rfl⟩

theorem create_task_asyncOk_eval (s : Store) (d : DescField) (tid : String)
    (t : Nat → String) (hd : descTruthy d = true) :
    handle_create_task s d tid .asyncOk t =
      ({ statusCode := 202, bodyId := some tid, bodyStat := some "queued",
         bodyMessage := some "Task queued for processing" },
       dictUpdate (dictUpdate (dictPut s tid (seedTask tid (descStr d) t)) tid
         (fun it =>
           { it with
             events := some ((it.events.getD []) ++
               [⟨t 3, "Agent queued for processing", "info"⟩]),
             status := some "queued" }))
         tid (fun it => { it with updated_at := some (t 8) })) := by
  have h2 : Store.get (dictUpdate (dictUpdate (dictPut s tid
      (seedTask tid (descStr d) t)) tid
      (fun it =>
        { it with
          events := some ((it.events.getD []) ++
            [⟨t 3, "Agent queued for processing", "info"⟩]),
          status := some "queued" })) tid
      (fun it => { it with updated_at := some (t 8) })) tid
      = some { seedTask tid (descStr d) t with
          status := some "queued",
          events := some [⟨t 2, "Task created", "info"⟩,
            ⟨t 3, "Agent queued for processing", "info"⟩],
          updated_at := some (t 8) } := by
    rw [get_dictUpdate_self, get_dictUpdate_self, get_dictPut_self]
    simp [seedTask]
  unfold handle_create_task
  rw [if_neg (by simp [hd])]
  dsimp only
  rw [h2]
  simp [seedTask]

theorem create_task_asyncOk_get (s : Store) (d : DescField) (tid : String)
    (t : Nat → String) (hd : descTruthy d = true) :
    Store.get (handle_create_task s d tid .asyncOk t).2 tid =
      some { seedTask tid (descStr d) t with
        status := some "queued",
        events := some [⟨t 2, "Task created", "info"⟩,
          ⟨t 3, "Agent queued for processing", "info"⟩],
        updated_at := some (t 8) } := by
  rw [create_task_asyncOk_eval s d tid t hd]
  dsimp only
  rw [get_dictUpdate_self, get_dictUpdate_self, get_dictPut_self]
  simp [seedTask]

theorem create_task_asyncFail_status (s : Store) (d : DescField) (tid : String)
    (raw : AgentHttp) (t : Nat → String) (hd : descTruthy d = true) :
    ∃ fin : Item,
      Store.get (handle_create_task s d tid (.asyncFail raw) t).2 tid = some fin ∧
      (fin.status = some "completed" ∨ fin.status = some "error") := by
  have hput := get_dictPut_self s tid (seedTask tid (descStr d) t)
  obtain ⟨hok, herr⟩ := api_invoke_agent_status _ tid raw (fun n => t (n + 3))
    _ hput
  unfold handle_create_task
  rw [if_neg (by simp [hd])]
  dsimp only
  rcases happ : api_invoke_agent (dictPut s tid (seedTask tid (descStr d) t))
      tid raw (fun n => t (n + 3)) with ⟨m, s'⟩ | s'
  · obtain ⟨fin, hfin, hstat⟩ := herr m s' happ
    simp only [happ]
    split <;>
      · rw [get_dictUpdate_self, get_dictUpdate_self, hfin]
        exact ⟨_, rfl, Or.inr rfl⟩
  · obtain ⟨fin, hfin, hstat⟩ := hok s' happ
    simp only [happ]
    split <;>
      · rw [get_dictUpdate_self, get_dictUpdate_self, hfin]
        exact ⟨_, rfl, Or.inl hstat⟩

/-- C2 (amended): for every createTask call with a non-empty description, the
task record persisted before the hand-off (`seedTask`) has status
"processing" with exactly the one seed event; on a successful hand-off the
response is 202 with body status "queued" and a subsequent getTask returns
the task with status "queued" (seed event plus hand-off event); if the
asynchronous hand-off raises, the fallback leaves the task in status
"completed" or "error", so a subsequent getTask always finds status in
{queued, completed, error}. -/
theorem create_task_seed_and_response (s : Store) (d : DescField) (tid : String)
    (ho : Handoff) (t : Nat → String) (hd : descTruthy d = true) :
    (seedTask tid (descStr d) t).status = some "processing" ∧
    (seedTask tid (descStr d) t).events = some [⟨t 2, "Task created", "info"⟩] ∧
    (∃ fin : Item,
      Store.get (handle_create_task s d tid ho t).2 tid = some fin ∧
      (fin.status = some "queued" ∨ fin.status = some "completed" ∨
        fin.status = some "error")) ∧
    (ho = .asyncOk →
      (handle_create_task s d tid ho t).1.statusCode = 202 ∧
      (handle_create_task s d tid ho t).1.bodyStat = some "queued" ∧
      (handle_get_task (handle_create_task s d tid ho t).2 tid).1 = 200 ∧
      (∃ fin : Item,
        (handle_get_task (handle_create_task s d tid ho t).2 tid).2 = some fin ∧
        fin.status = some "queued" ∧
        fin.events = some [⟨t 2, "Task created", "info"⟩,
          ⟨t 3, "Agent queued for processing", "info"⟩])) := by
  refine ⟨rfl, rfl, ?_, ?_⟩
  · cases ho with
    | asyncOk =>
      exact ⟨_, create_task_asyncOk_get s d tid t hd, Or.inl rfl⟩
    | asyncFail raw =>
      obtain ⟨fin, hfin, hstat⟩ := create_task_asyncFail_status s d tid raw t hd
      exact ⟨fin, hfin, Or.inr hstat⟩
  · intro hho
    subst hho
    have hget := create_task_asyncOk_get s d tid t hd
    refine ⟨?_, ?_, ?_, ?_⟩
    · rw [create_task_asyncOk_eval s d tid t hd]
    · rw [create_task_asyncOk_eval s d tid t hd]
    · unfold handle_get_task
      rw [hget]
    · unfold handle_get_task
      rw [hget]
      exact ⟨_, rfl, rfl, rfl⟩

/-- Witness for C2 (amended): concrete creation with a successful hand-off on
an empty store. -/
theorem create_task_seed_and_response_witness :
    (seedTask "w2" (descStr (.strv "Paint the deck")) (fun _ => "T")).status
      = some "processing" ∧
    (seedTask "w2" (descStr (.strv "Paint the deck")) (fun _ => "T")).events
      = some [⟨"T", "Task created", "info"⟩] ∧
    (∃ fin : Item,
      Store.get (handle_create_task [] (.strv "Paint the deck") "w2" .asyncOk
        (fun _ => "T")).2 "w2" = some fin ∧
      (fin.status = some "queued" ∨ fin.status = some "completed" ∨
        fin.status = some "error")) ∧
    (Handoff.asyncOk = .asyncOk →
      (handle_create_task [] (.strv "Paint the deck") "w2" .asyncOk
        (fun _ => "T")).1.statusCode = 202 ∧
      (handle_create_task [] (.strv "Paint the deck") "w2" .asyncOk
        (fun _ => "T")).1.bodyStat = some "queued" ∧
      (handle_get_task (handle_create_task [] (.strv "Paint the deck") "w2"
        .asyncOk (fun _ => "T")).2 "w2").1 = 200 ∧
      (∃ fin : Item,
        (handle_get_task (handle_create_task [] (.strv "Paint the deck") "w2"
          .asyncOk (fun _ => "T")).2 "w2").2 = some fin ∧
        fin.status = some "queued" ∧
        fin.events = some [⟨"T", "Task created", "info"⟩,
          ⟨"T", "Agent queued for processing", "info"⟩])) :=
  create_task_seed_and_response [] (.strv "Paint the deck") "w2" .asyncOk
    (fun _ => "T") (by decide)

/-- C9: for any stored tasks with pairwise-distinct `created_at` timestamps,
the listing (both `handle_list_tasks` over the in-memory store and the
DynamoDB-side `list_tasks` sort, which coincide) returns a permutation of the
stored tasks that is strictly descending in `created_at` — newest first under
Python string comparison. -/
theorem list_tasks_sorted_newest_first (s : Store)
    (hdist : (s.map (fun kv => kv.2)).Pairwise
      (fun a b => createdKey a ≠ createdKey b)) :
    (handle_list_tasks s).Perm (s.map (fun kv => kv.2)) ∧
    list_tasks (s.map (fun kv => kv.2)) = handle_list_tasks s ∧
    (handle_list_tasks s).Pairwise
      (fun a b => pyStrLt (createdKey b) (createdKey a) = true) := by
  refine ⟨sortNewestFirst_perm _, rfl, ?_⟩
  have hs := sortNewestFirst_sorted (s.map (fun kv => kv.2))
  have hd : (handle_list_tasks s).Pairwise
      (fun a b => createdKey a ≠ createdKey b) :=
    hdist.perm (sortNewestFirst_perm _).symm (fun hxy => Ne.symm hxy)
  exact List.Pairwise.imp₂
    (fun a b hle hne => pyStrLt_of_le_of_ne hle (Ne.symm hne)) hs hd

/-- Witness for C9: two tasks with distinct timestamps come back newest
first. -/
theorem list_tasks_sorted_newest_first_witness :
    (handle_list_tasks [("a", { id := "a", created_at := some "2024-01-01" }),
      ("b", { id := "b", created_at := some "2024-02-01" })]).Perm
      (([("a", { id := "a", created_at := some "2024-01-01" }),
        ("b", { id := "b", created_at := some "2024-02-01" })] : Store).map
        (fun kv => kv.2)) ∧
    list_tasks (([("a", { id := "a", created_at := some "2024-01-01" }),
        ("b", { id := "b", created_at := some "2024-02-01" })] : Store).map
        (fun kv => kv.2)) =
      handle_list_tasks [("a", { id := "a", created_at := some "2024-01-01" }),
        ("b", { id := "b", created_at := some "2024-02-01" })] ∧
    (handle_list_tasks [("a", { id := "a", created_at := some "2024-01-01" }),
      ("b", { id := "b", created_at := some "2024-02-01" })]).Pairwise
      (fun a b => pyStrLt (createdKey b) (createdKey a) = true) :=
  list_tasks_sorted_newest_first
    [("a", { id := "a", created_at := some "2024-01-01" }),
     ("b", { id := "b", created_at := some "2024-02-01" })] (by decide)

end Valro
